import Mathlib

/-!
Verification of the vaccipy command-line front end (`main.py`).

Python strings are modelled as lists of characters (`Str`), dictionaries with a
fixed key set as structures of `Option` fields (a `none` field is an absent
key), the interactive input stream as lists of input strings (an exhausted list
models a prompt loop that never terminates), the random source as an arbitrary
function `Nat → Nat`, and the remote service (`ImpfterminService`) as an oracle
environment together with an explicit trace of the network calls issued.
-/

namespace Vaccipy

/-- Python strings, modelled as lists of characters. -/
abbrev Str := List Char

/-- Python `s.startswith(p)`. -/
def pyStartswith (s p : Str) : Bool :=
  match p, s with
  | [], _ => true
  | _ :: _, [] => false
  | q :: qs, c :: cs => c == q && pyStartswith cs qs

/-- Python `s.strip()`: remove leading and trailing whitespace. -/
def pyStrip (s : Str) : Str :=
  ((s.dropWhile Char.isWhitespace).reverse.dropWhile Char.isWhitespace).reverse

/-- Python `s.split(sep)` for a one-character separator; empty parts are kept,
and the empty string splits into one empty part. -/
def pySplit (sep : Char) : Str → List Str
  | [] => [[]]
  | x :: rest =>
    if x == sep then [] :: pySplit sep rest
    else
      match pySplit sep rest with
      | [] => [[x]]
      | g :: gs => (x :: g) :: gs

/-- Python `s.upper()` on ASCII input. -/
def pyUpper (s : Str) : Str := s.map Char.toUpper

/-- Python `s.replace("-", "")`: drop every hyphen. -/
def removeHyphens (s : Str) : Str := s.filter (fun c => c != '-')

/-- Modelled from the spec: `remove_prefix` is imported from `tools/utils`,
which is not among the inspected sources.  The spec describes phone
normalization as removing the leading local-trunk zero, so the helper removes
the given leading string when present and otherwise returns the input. -/
def removeLeading (s p : Str) : Str :=
  if pyStartswith s p then s.drop p.length else s

/-- Phone normalization as written in `update_kontaktdaten_interactive`
(line 98) and `gen_code` (lines 236-237): keep the number when it already
starts with "+49", otherwise prepend "+49" after removing one leading "0". -/
def normalize_phone (x : Str) : Str :=
  if pyStartswith x (String.toList "+49") then x
  else (String.toList "+49") ++ removeLeading x (String.toList "0")

lemma pyStartswith_nil (s : Str) : pyStartswith s [] = true := by
  cases s <;> rfl

lemma pyStartswith_cons_cons (q c : Char) (qs cs : Str) :
    pyStartswith (c :: cs) (q :: qs) = (c == q && pyStartswith cs qs) := rfl

lemma pyStartswith_append (p t : Str) : pyStartswith (p ++ t) p = true := by
  induction p with
  | nil => exact pyStartswith_nil t
  | cons q qs ih => simp [pyStartswith_cons_cons, ih]

/-- `pyStartswith s (p ++ q)` splits into a check of `p` and a check of `q` on
the remainder. -/
lemma pyStartswith_append_right (p q : Str) :
    ∀ s : Str, pyStartswith s (p ++ q) =
      (pyStartswith s p && pyStartswith (s.drop p.length) q) := by
  induction p with
  | nil => intro s; simp [pyStartswith_nil]
  | cons a as ih =>
    intro s
    cases s with
    | nil => cases q <;> cases as <;> simp [pyStartswith]
    | cons c cs => simp [pyStartswith_cons_cons, ih, Bool.and_assoc]

/-- C3: phone normalization leaves "+49"-prefixed input unchanged, otherwise
prepends "+49" after removing one leading zero; the result always starts with
"+49"; on well-formed input (no "00" trunk prefix, no "+490") the part after
"+49" carries no leading zero; and "0151234567" normalizes to
"+49151234567". -/
theorem c3_phone_normalization :
    (∀ s : Str, pyStartswith s (String.toList "+49") = true → normalize_phone s = s) ∧
    (∀ s : Str, pyStartswith s (String.toList "+49") = false →
      normalize_phone s = (String.toList "+49") ++ removeLeading s (String.toList "0")) ∧
    (∀ s : Str, pyStartswith (normalize_phone s) (String.toList "+49") = true) ∧
    (∀ s : Str, pyStartswith s (String.toList "00") = false →
      pyStartswith s (String.toList "+490") = false →
      pyStartswith ((normalize_phone s).drop 3) (String.toList "0") = false) ∧
    normalize_phone (String.toList "0151234567") = String.toList "+49151234567" := by
  refine ⟨?_, ?_, ?_, ?_, by decide⟩
  · intro s h; unfold normalize_phone; rw [if_pos h]
  · intro s h; unfold normalize_phone
    rw [if_neg (by rw [h]; exact Bool.false_ne_true)]
  · intro s
    by_cases h : pyStartswith s (String.toList "+49") = true
    · unfold normalize_phone; rw [if_pos h]; exact h
    · unfold normalize_phone; rw [if_neg h]; exact pyStartswith_append _ _
  · intro s h00 h49
    by_cases h : pyStartswith s (String.toList "+49") = true
    · -- the number is returned unchanged; "+490" is excluded by hypothesis
      have hsplit := pyStartswith_append_right (String.toList "+49") (String.toList "0") s
      rw [show (String.toList "+49") ++ (String.toList "0") =
        String.toList "+490" from rfl] at hsplit
      rw [h49, h, Bool.true_and] at hsplit
      unfold normalize_phone
      rw [if_pos h]
      exact hsplit.symm
    · unfold normalize_phone
      rw [if_neg h]
      have hdrop : ((String.toList "+49") ++ removeLeading s (String.toList "0")).drop 3 =
          removeLeading s (String.toList "0") := rfl
      rw [hdrop]
      unfold removeLeading
      by_cases h0 : pyStartswith s (String.toList "0") = true
      · -- s = '0' :: s'; "00" excluded, so s' does not start with '0'
        rw [if_pos h0]
        cases s with
        | nil => exact absurd h0 (by decide)
        | cons c cs =>
          have hc : c = '0' := by
            rw [show (String.toList "0") = ['0'] from rfl,
              pyStartswith_cons_cons, pyStartswith_nil, Bool.and_true] at h0
            exact eq_of_beq h0
          subst hc
          rw [show (String.toList "00") = ['0'] ++ ['0'] from rfl,
            pyStartswith_append_right, pyStartswith_cons_cons, pyStartswith_nil] at h00
          simp only [Bool.and_eq_false_iff] at h00
          rcases h00 with h00 | h00
          · exact absurd h00 (by decide)
          · exact h00
      · rw [if_neg h0]
        exact Bool.not_eq_true _ |>.mp h0

/-! ### C5: the interactive Location Set transformer (line 57) -/

/-- The transformer `lambda x: list(set([plz.strip() for plz in x.split(",")]))`:
split on commas, strip each part, deduplicate.  Python's `set` iteration order
is unspecified, so the list is modelled up to deduplication keeping the first
occurrence; the claims about it are order-irrelevant. -/
def plz_transformer (x : Str) : List Str :=
  ((pySplit ',' x).map pyStrip).dedup

/-- C5: the Location Set transformer splits on commas, strips every part and
deduplicates; "68163, 69124, 68163" yields exactly the two-element set
containing "68163" and "69124". -/
theorem c5_location_set :
    (plz_transformer (String.toList "68163, 69124, 68163")).toFinset =
      ({String.toList "68163", String.toList "69124"} : Finset Str) ∧
    (∀ x : Str, (plz_transformer x).Nodup) ∧
    (∀ x : Str, ∀ a : Str,
      a ∈ plz_transformer x ↔ a ∈ (pySplit ',' x).map pyStrip) := by
  refine ⟨by decide, fun x => List.nodup_dedup _, fun x a => List.mem_dedup⟩

/-! ### C4: mutually exclusive command-line flags (lines 308-315, 365-369) -/

/-- The command-line flags relevant to `validate_args`. -/
structure Args where
  configure_only : Bool
  read_only : Bool
  deriving DecidableEq

/-- `validate_args` (lines 308-315): raises `ValueError` exactly when both
flags are set. -/
def validate_args (a : Args) : Except Str Unit :=
  if a.configure_only && a.read_only then
    Except.error (String.toList
      "--configure-only und --read-only kann nicht gleichzeitig verwendet werden")
  else Except.ok ()

/-- What `main` does with `validate_args` before dispatching a subcommand
(lines 365-371): `parser.error` terminates the process with status 2. -/
inductive MainStep
  | exited (status : Nat)
  | dispatch
  deriving DecidableEq

/-- The validation step of `main` (lines 365-371), before any subcommand runs. -/
def main_validate (a : Args) : MainStep :=
  match validate_args a with
  | Except.error _ => MainStep.exited 2
  | Except.ok _ => MainStep.dispatch

/-- C4: both flags set makes the process exit with non-zero status 2 before
any subcommand dispatch; with at most one flag set `validate_args` raises
nothing. -/
theorem c4_flag_exclusion :
    (∀ a : Args, a.configure_only = true → a.read_only = true →
      main_validate a = MainStep.exited 2 ∧ (2 : Nat) ≠ 0) ∧
    (∀ a : Args, ¬(a.configure_only = true ∧ a.read_only = true) →
      validate_args a = Except.ok ()) := by
  constructor
  · rintro ⟨c, r⟩ hc hr
    subst hc; subst hr
    exact ⟨rfl, by decide⟩
  · rintro ⟨c, r⟩ h
    cases c <;> cases r <;> simp_all [validate_args]

/-! ### C6: the synthetic booking code (lines 244-251) -/

/-- `string.ascii_uppercase + string.digits`. -/
def code_chars : List Char :=
  (String.toList "ABCDEFGHIJKLMNOPQRSTUVWXYZ") ++ (String.toList "0123456789")

/-- One draw of `random.choice(code_chars)`: an arbitrary index, reduced
modulo the 36 characters. -/
def pyChoice (r : Nat) : Char := ((code_chars.get? (r % 36)).getD 'A')

/-- The synthetic code of `gen_code` (lines 244-251):
`one = 'VACC'`, `two = 'IPY' + random.choice(code_chars)`,
`three = ''.join(random.choices(code_chars, k=4))`, joined by hyphens. -/
def random_code (rng : Nat → Nat) : Str :=
  let one := String.toList "VACC"
  let two := (String.toList "IPY") ++ [pyChoice (rng 0)]
  let three := [pyChoice (rng 1), pyChoice (rng 2), pyChoice (rng 3), pyChoice (rng 4)]
  one ++ (String.toList "-") ++ two ++ (String.toList "-") ++ three

lemma pyChoice_mem (r : Nat) : pyChoice r ∈ code_chars := by
  have hlt : r % 36 < code_chars.length := by
    have h36 : code_chars.length = 36 := by decide
    rw [h36]
    exact Nat.mod_lt _ (by norm_num)
  unfold pyChoice
  rw [List.get?_eq_get hlt]
  simp only [Option.getD_some]
  exact List.get_mem code_chars _ _

/-- C6: for every outcome of the random choices, the generated code is the
constant tag "VACC", a hyphen, a 4-character group, a hyphen and another
4-character group, all group characters drawn from A-Z and 0-9 (so no group
contains a hyphen, and the hyphen-split is exactly these three groups). -/
theorem c6_booking_code_format (rng : Nat → Nat) :
    (random_code rng = (String.toList "VACC") ++ '-' ::
        (((String.toList "IPY") ++ [pyChoice (rng 0)]) ++ '-' ::
          [pyChoice (rng 1), pyChoice (rng 2), pyChoice (rng 3), pyChoice (rng 4)])) ∧
    (String.toList "VACC").length = 4 ∧
    ((String.toList "IPY") ++ [pyChoice (rng 0)]).length = 4 ∧
    ([pyChoice (rng 1), pyChoice (rng 2), pyChoice (rng 3), pyChoice (rng 4)]).length = 4 ∧
    (∀ c ∈ String.toList "VACC", c ∈ code_chars) ∧
    (∀ c ∈ (String.toList "IPY") ++ [pyChoice (rng 0)], c ∈ code_chars) ∧
    (∀ c ∈ [pyChoice (rng 1), pyChoice (rng 2), pyChoice (rng 3), pyChoice (rng 4)],
      c ∈ code_chars) ∧
    (∀ c ∈ code_chars, c ≠ '-') := by
  refine ⟨rfl, rfl, rfl, rfl, by decide, ?_, ?_, by decide⟩
  · intro c hc
    rcases List.mem_append.1 hc with h | h
    · have hsub : ∀ d ∈ String.toList "IPY", d ∈ code_chars := by decide
      exact hsub c h
    · rcases List.mem_singleton.1 h with rfl
      exact pyChoice_mem _
  · intro c hc
    simp only [List.mem_cons, List.not_mem_nil, or_false] at hc
    rcases hc with rfl | rfl | rfl | rfl <;> exact pyChoice_mem _

/-! ### The contact-data dictionary -/

/-- The `kontakt` sub-dictionary; a `none` field is an absent key. -/
structure Kontakt where
  anrede : Option Str := none
  vorname : Option Str := none
  nachname : Option Str := none
  strasse : Option Str := none
  hausnummer : Option Str := none
  plz : Option Str := none
  ort : Option Str := none
  phone : Option Str := none
  notificationChannel : Option Str := none
  notificationReceiver : Option Str := none
  deriving DecidableEq

/-- The `kontaktdaten` dictionary; a `none` field is an absent key. -/
structure Kontaktdaten where
  code : Option Str := none
  plz : Option Str := none
  plz_impfzentren : Option (List Str) := none
  kontakt : Option Kontakt := none
  deriving DecidableEq

/-- The empty `kontakt` sub-dictionary installed by line 63. -/
def emptyKontakt : Kontakt := {}

/-! ### `run_search` (lines 161-190) -/

/-- The observable outcome of `run_search`: either the `ValueError` raised by
the `except KeyError` handler, or the one network action, the call
`ImpfterminService.terminsuche(code=..., plz_impfzentren=..., kontakt=...)`. -/
inductive SearchOutcome
  | raisedValueError
  | terminsuche (code : Str) (plz_impfzentren : List Str) (kontakt : Kontakt)
  deriving DecidableEq

/-- `run_search` (lines 161-190): extract `code`; use `[kontaktdaten["plz"]]`
when the legacy top-level `plz` is present and truthy, else
`kontaktdaten["plz_impfzentren"]`; extract `kontakt` and read
`vorname`/`nachname` for the greeting; any missing key becomes `ValueError`.
Only then is the appointment search started. -/
def run_search (kd : Kontaktdaten) : SearchOutcome :=
  match kd.code with
  | none => SearchOutcome.raisedValueError
  | some code =>
    match
      (match kd.plz with
       | some p => if !p.isEmpty then some [p] else kd.plz_impfzentren
       | none => kd.plz_impfzentren) with
    | none => SearchOutcome.raisedValueError
    | some plzs =>
      match kd.kontakt with
      | none => SearchOutcome.raisedValueError
      | some k =>
        match k.vorname, k.nachname with
        | some _, some _ => SearchOutcome.terminsuche code plzs k
        | some _, none => SearchOutcome.raisedValueError
        | none, _ => SearchOutcome.raisedValueError

/-! ### `gen_code` (lines 225-285) -/

/-- A network call issued through the `ImpfterminService` instance. -/
inductive NetCall
  | renewCookiesCode
  | code_anfordern (mail telefonnummer plz leistungsmerkmal : Str)
  | code_bestaetigen (token sms_pin : Str)
  deriving DecidableEq

/-- The two Python exceptions the extraction block of `gen_code` can raise:
a missing key raises `KeyError` (caught and turned into `ValueError`), while
`kontaktdaten["plz_impfzentren"][0]` on an empty list raises `IndexError`,
which the `except KeyError` handler does not catch. -/
inductive ExtractErr
  | keyError
  | indexError
  deriving DecidableEq

/-- Lines 232-237: extract the first Impfzentrum postal code, the mail address
and the phone number (normalized to "+49..."). -/
def genExtract (kd : Kontaktdaten) : Except ExtractErr (Str × Str × Str) :=
  match kd.plz_impfzentren with
  | none => Except.error ExtractErr.keyError
  | some [] => Except.error ExtractErr.indexError
  | some (plz :: _) =>
    match kd.kontakt with
    | none => Except.error ExtractErr.keyError
    | some k =>
      match k.notificationReceiver with
      | none => Except.error ExtractErr.keyError
      | some mail =>
        match k.phone with
        | none => Except.error ExtractErr.keyError
        | some ph => Except.ok (plz, mail, normalize_phone ph)

/-- The four accepted category selectors (line 263). -/
def leistungsmerkmale : List Str :=
  [String.toList "L920", String.toList "L921", String.toList "L922", String.toList "L923"]

/-- The category selector check of line 262-263: uppercase the input and test
membership in the four recognized tags. -/
def lmAccept (s : Str) : Bool := leistungsmerkmale.contains (pyUpper s)

/-- The `while True` prompt loop of lines 261-265 over a finite list of
prompted inputs: the first input whose uppercasing is a recognized tag is
selected; `none` models a user who never supplies a valid tag (the loop
re-prompts forever). -/
def selectLM : List Str → Option Str
  | [] => none
  | x :: rest =>
    if leistungsmerkmale.contains (pyUpper x) then some (pyUpper x) else selectLM rest

/-- The `for _ in range(3)` confirmation loop of lines 278-282: at attempt
index `i` with `fuel` attempts left, read an SMS input, strip hyphens, call
the confirmation oracle; stop at the first success.  Returns whether a call
succeeded and the list of pins actually submitted to the network. -/
def smsLoopGo (ok : Str → Bool) (inputs : Nat → Str) : Nat → Nat → Bool × List Str
  | _, 0 => (false, [])
  | i, fuel + 1 =>
    let pin := removeHyphens (inputs i)
    if ok pin then (true, [pin])
    else
      let rest := smsLoopGo ok inputs (i + 1) fuel
      (rest.1, pin :: rest.2)

/-- The confirmation loop run with its fixed cap of 3 attempts. -/
def smsLoop (ok : Str → Bool) (inputs : Nat → Str) : Bool × List Str :=
  smsLoopGo ok inputs 0 3

/-- The environment of one `gen_code` run: the category-selector inputs, the
SMS-code inputs, the token `code_anfordern` returns, the network's answer to
each confirmation call, and the random source. -/
structure GenEnv where
  lmInputs : List Str
  smsInputs : Nat → Str
  anfordern_token : Option Str
  bestaetigen_ok : Str → Str → Bool
  rng : Nat → Nat

/-- The observable outcome of `gen_code`: the `ValueError` of the handler, the
uncaught `IndexError` of an empty `plz_impfzentren` list, a category prompt
that never terminates (before any network call), or a normal return carrying
the returned Boolean and the trace of issued network calls. -/
inductive GenOutcome
  | raisedValueError
  | raisedIndexError
  | divergedInput
  | done (success : Bool) (calls : List NetCall)
  deriving DecidableEq

/-- `gen_code` (lines 225-285): extract the contact fields (missing keys raise
before anything else happens), generate the random code, prompt for the
category selector, then renew cookies, request a code and, when a token came
back, confirm it with at most 3 SMS-code attempts, returning `True` on the
first success. -/
def gen_code (kd : Kontaktdaten) (env : GenEnv) : GenOutcome :=
  match genExtract kd with
  | Except.error ExtractErr.keyError => GenOutcome.raisedValueError
  | Except.error ExtractErr.indexError => GenOutcome.raisedIndexError
  | Except.ok (plz, mail, telefonnummer) =>
    match selectLM env.lmInputs with
    | none => GenOutcome.divergedInput
    | some lm =>
      match env.anfordern_token with
      | none =>
        GenOutcome.done false
          [NetCall.renewCookiesCode, NetCall.code_anfordern mail telefonnummer plz lm]
      | some token =>
        let res := smsLoop (fun pin => env.bestaetigen_ok token pin) env.smsInputs
        GenOutcome.done res.1
          ([NetCall.renewCookiesCode, NetCall.code_anfordern mail telefonnummer plz lm] ++
            res.2.map (fun pin => NetCall.code_bestaetigen token pin))

/-- The network calls an outcome of `gen_code` issued. -/
def gencodeCalls : GenOutcome → List NetCall
  | GenOutcome.done _ calls => calls
  | _ => []

/-- The (token, pin) arguments of the `code_bestaetigen` calls in a trace. -/
def bestaetigenArgs : List NetCall → List (Str × Str)
  | [] => []
  | NetCall.code_bestaetigen t p :: rest => (t, p) :: bestaetigenArgs rest
  | _ :: rest => bestaetigenArgs rest

lemma bestaetigenArgs_map (t : Str) (ps : List Str) :
    bestaetigenArgs (ps.map (fun pin => NetCall.code_bestaetigen t pin)) =
      ps.map (fun pin => (t, pin)) := by
  induction ps with
  | nil => rfl
  | cons p ps ih => simp [bestaetigenArgs, ih]

lemma list_dropLast_map {α β : Type} (f : α → β) :
    ∀ l : List α, (l.map f).dropLast = l.dropLast.map f
  | [] => rfl
  | [_] => rfl
  | a :: b :: l => by
    simp only [List.map_cons, List.dropLast_cons₂]
    rw [← List.map_cons f b l, list_dropLast_map f (b :: l)]

lemma list_getLast?_map {α β : Type} (f : α → β) :
    ∀ l : List α, (l.map f).getLast? = (l.getLast?).map f
  | [] => rfl
  | [_] => rfl
  | a :: b :: l => by
    simp only [List.map_cons, List.getLast?_cons_cons]
    rw [← List.map_cons f b l, list_getLast?_map f (b :: l)]

lemma smsLoopGo_length (ok : Str → Bool) (inputs : Nat → Str) :
    ∀ fuel i, (smsLoopGo ok inputs i fuel).2.length ≤ fuel := by
  intro fuel
  induction fuel with
  | zero => intro i; simp [smsLoopGo]
  | succ n ih =>
    intro i
    by_cases h : ok (removeHyphens (inputs i)) = true
    · simp [smsLoopGo, h]
    · simp only [smsLoopGo, h, Bool.false_eq_true, if_false, List.length_cons]
      exact Nat.succ_le_succ (ih (i + 1))

lemma smsLoopGo_dropLast (ok : Str → Bool) (inputs : Nat → Str) :
    ∀ fuel i, ∀ p ∈ (smsLoopGo ok inputs i fuel).2.dropLast, ok p = false := by
  intro fuel
  induction fuel with
  | zero => intro i p hp; simp [smsLoopGo] at hp
  | succ n ih =>
    intro i p hp
    by_cases h : ok (removeHyphens (inputs i)) = true
    · simp [smsLoopGo, h] at hp
    · simp only [smsLoopGo, h, Bool.false_eq_true, if_false] at hp
      rcases hrest : (smsLoopGo ok inputs (i + 1) n).2 with _ | ⟨q, qs⟩
      · rw [hrest] at hp
        exact absurd hp (by simp)
      · rw [hrest, List.dropLast_cons₂] at hp
        rcases List.mem_cons.1 hp with rfl | hmem
        · exact Bool.not_eq_true _ |>.mp h
        · exact ih (i + 1) p (by rw [hrest]; exact hmem)

lemma smsLoopGo_success (ok : Str → Bool) (inputs : Nat → Str) :
    ∀ fuel i, (smsLoopGo ok inputs i fuel).1 = true ↔
      ∃ p, (smsLoopGo ok inputs i fuel).2.getLast? = some p ∧ ok p = true := by
  intro fuel
  induction fuel with
  | zero =>
    intro i
    simp [smsLoopGo]
  | succ n ih =>
    intro i
    by_cases h : ok (removeHyphens (inputs i)) = true
    · simp only [smsLoopGo, h, if_true]
      constructor
      · intro _
        exact ⟨removeHyphens (inputs i), by simp, h⟩
      · intro _; trivial
    · simp only [smsLoopGo, h, Bool.false_eq_true, if_false]
      have hfalse : (smsLoopGo ok inputs (i + 1) n).2 = [] →
          (smsLoopGo ok inputs (i + 1) n).1 = false := by
        intro hnil
        rcases hb : (smsLoopGo ok inputs (i + 1) n).1 with _ | _
        · rfl
        · exfalso
          rcases (ih (i + 1)).1 hb with ⟨p, hp, _⟩
          rw [hnil] at hp
          exact absurd hp (by simp)
      rcases hrest : (smsLoopGo ok inputs (i + 1) n).2 with _ | ⟨q, qs⟩
      · rw [hfalse hrest]
        constructor
        · intro hcontr; exact absurd hcontr (by simp)
        · rintro ⟨p, hp, hokp⟩
          have hpe : p = removeHyphens (inputs i) := by
            simpa using hp.symm
          rw [hpe] at hokp
          exact absurd hokp h
      · rw [List.getLast?_cons_cons]
        have hih := ih (i + 1)
        rw [hrest] at hih
        exact hih

/-- C1: in every terminating run of `gen_code` in which `code_anfordern`
returned a token, at most 3 `code_bestaetigen` calls are issued (so a 4th
attempt never reaches the network), all of them carry that token, every call
except possibly the last one failed, and the run returns `True` exactly when
the last confirmation call succeeded. -/
theorem c1_confirmation_attempts (kd : Kontaktdaten) (env : GenEnv) (r : Bool)
    (calls : List NetCall) (token : Str)
    (h : gen_code kd env = GenOutcome.done r calls)
    (ht : env.anfordern_token = some token) :
    (bestaetigenArgs calls).length ≤ 3 ∧
    (∀ a ∈ bestaetigenArgs calls, a.1 = token) ∧
    (∀ a ∈ (bestaetigenArgs calls).dropLast, env.bestaetigen_ok a.1 a.2 = false) ∧
    (r = true ↔ ∃ a, (bestaetigenArgs calls).getLast? = some a ∧
      env.bestaetigen_ok a.1 a.2 = true) := by
  unfold gen_code at h
  rcases hx : genExtract kd with e | ⟨plz, mail, tel⟩
  · rw [hx] at h
    cases e <;> exact absurd h (by simp)
  · rw [hx] at h
    rcases hlm : selectLM env.lmInputs with _ | lm
    · rw [hlm] at h
      exact absurd h (by simp)
    · rw [hlm, ht] at h
      simp only [GenOutcome.done.injEq] at h
      obtain ⟨hr, hcalls⟩ := h
      subst hr
      subst hcalls
      rw [show bestaetigenArgs
          ([NetCall.renewCookiesCode, NetCall.code_anfordern mail tel plz lm] ++
            (smsLoop (fun pin => env.bestaetigen_ok token pin) env.smsInputs).2.map
              (fun pin => NetCall.code_bestaetigen token pin)) =
          (smsLoop (fun pin => env.bestaetigen_ok token pin) env.smsInputs).2.map
            (fun pin => (token, pin)) from by
        rw [List.cons_append, List.cons_append, List.nil_append]
        show bestaetigenArgs _ = _
        unfold bestaetigenArgs
        exact bestaetigenArgs_map token _]
      refine ⟨?_, ?_, ?_, ?_⟩
      · rw [List.length_map]
        exact smsLoopGo_length _ _ 3 0
      · intro a ha
        rcases List.mem_map.1 ha with ⟨pin, _, rfl⟩
        rfl
      · intro a ha
        rw [list_dropLast_map] at ha
        rcases List.mem_map.1 ha with ⟨pin, hpin, rfl⟩
        exact smsLoopGo_dropLast _ _ 3 0 pin hpin
      · unfold smsLoop
        rw [list_getLast?_map]
        rw [smsLoopGo_success (fun pin => env.bestaetigen_ok token pin) env.smsInputs 3 0]
        constructor
        · rintro ⟨p, hp, hok⟩
          exact ⟨(token, p), by rw [hp]; rfl, hok⟩
        · rintro ⟨a, ha, hok⟩
          rcases hlast : (smsLoopGo (fun pin => env.bestaetigen_ok token pin)
              env.smsInputs 0 3).2.getLast? with _ | p
          · rw [hlast] at ha
            exact absurd ha (by simp)
          · rw [hlast] at ha
            have ha2 : ((token, p) : Str × Str) = a := Option.some.inj ha
            refine ⟨p, rfl, ?_⟩
            rw [← ha2] at hok
            exact hok

/-! ### C2: the category selector (lines 261-265) -/

lemma contains_lm_iff (a : Str) :
    leistungsmerkmale.contains a = true ↔ a ∈ leistungsmerkmale := by
  constructor
  · intro h; exact List.mem_of_elem_eq_true h
  · intro h; exact List.elem_eq_true_of_mem h

lemma selectLM_mem : ∀ (inputs : List Str) (lm : Str),
    selectLM inputs = some lm → lm ∈ leistungsmerkmale := by
  intro inputs
  induction inputs with
  | nil => intro lm h; exact absurd h (by simp [selectLM])
  | cons x rest ih =>
    intro lm h
    unfold selectLM at h
    by_cases hc : leistungsmerkmale.contains (pyUpper x) = true
    · rw [if_pos hc] at h
      rcases Option.some.inj h with rfl
      exact (contains_lm_iff _).1 hc
    · rw [if_neg hc] at h
      exact ih lm h

/-- C2: the category-selector check succeeds exactly when the uppercased input
is one of the four recognized tags; a rejected input makes the prompt loop
move on to the next input; and every `code_anfordern` network call issued by
`gen_code` carries one of the four tags, so no rejected value ever reaches the
network. -/
theorem c2_category_selector :
    (∀ s : Str, lmAccept s = true ↔ pyUpper s ∈ leistungsmerkmale) ∧
    (∀ (x : Str) (rest : List Str), lmAccept x = false →
      selectLM (x :: rest) = selectLM rest) ∧
    (∀ (kd : Kontaktdaten) (env : GenEnv) (m p z lm : Str),
      NetCall.code_anfordern m p z lm ∈ gencodeCalls (gen_code kd env) →
      lm ∈ leistungsmerkmale) := by
  refine ⟨?_, ?_, ?_⟩
  · intro s
    exact contains_lm_iff (pyUpper s)
  · intro x rest hx
    have hc : leistungsmerkmale.contains (pyUpper x) = false := hx
    show (if leistungsmerkmale.contains (pyUpper x) = true then some (pyUpper x)
      else selectLM rest) = selectLM rest
    rw [if_neg (by rw [hc]; exact Bool.false_ne_true)]
  · intro kd env m p z lm hmem
    unfold gen_code at hmem
    rcases hx : genExtract kd with e | ⟨plz, mail, tel⟩
    · rw [hx] at hmem
      cases e <;> exact absurd hmem (by simp [gencodeCalls])
    · rw [hx] at hmem
      rcases hlm : selectLM env.lmInputs with _ | lm'
      · rw [hlm] at hmem
        exact absurd hmem (by simp [gencodeCalls])
      · rw [hlm] at hmem
        have hlm_mem := selectLM_mem env.lmInputs lm' hlm
        rcases htok : env.anfordern_token with _ | token
        · rw [htok] at hmem
          simp only [gencodeCalls, List.mem_cons, List.not_mem_nil, or_false] at hmem
          rcases hmem with h | h
          · exact absurd h (by simp)
          · rcases NetCall.code_anfordern.inj h with ⟨-, -, -, rfl⟩
            exact hlm_mem
        · rw [htok] at hmem
          simp only [gencodeCalls, List.cons_append, List.nil_append,
            List.mem_cons, List.mem_append, List.mem_map] at hmem
          rcases hmem with h | h | h
          · exact absurd h (by simp)
          · rcases NetCall.code_anfordern.inj h with ⟨-, -, -, rfl⟩
            exact hlm_mem
          · obtain ⟨pin, hpin, heq⟩ := h
            exact absurd heq (by simp)

/-! ### C10: the legacy top-level `plz` key in `run_search` (lines 171-178) -/

/-- C10: when the legacy top-level `plz` key is present and truthy, the search
runs on the one-element list holding that value, whatever `plz_impfzentren`
contains; only when `plz` is absent (or falsy, e.g. the empty string) is
`plz_impfzentren` used. -/
theorem c10_legacy_plz (kd : Kontaktdaten) (c p : Str) (k : Kontakt) (v n : Str)
    (hc : kd.code = some c) (hk : kd.kontakt = some k)
    (hv : k.vorname = some v) (hn : k.nachname = some n) :
    (kd.plz = some p → p ≠ [] → run_search kd = SearchOutcome.terminsuche c [p] k) ∧
    (∀ l : List Str, kd.plz = none → kd.plz_impfzentren = some l →
      run_search kd = SearchOutcome.terminsuche c l k) ∧
    (∀ l : List Str, kd.plz = some [] → kd.plz_impfzentren = some l →
      run_search kd = SearchOutcome.terminsuche c l k) := by
  refine ⟨?_, ?_, ?_⟩
  · intro hp hpne
    simp [run_search, hc, hp, hk, hv, hn, List.isEmpty_iff, hpne]
  · intro l hp hl
    simp [run_search, hc, hp, hl, hk, hv, hn]
  · intro l hp hl
    simp [run_search, hc, hp, hl, hk, hv, hn]

/-! ### C7: missing required contact fields -/

/-- C7 (amended): every listed missing key makes `run_search` and `gen_code`
raise `ValueError` with no network call issued; for `gen_code`'s
`notificationReceiver`/`phone` cases the dictionary must not carry an *empty*
`plz_impfzentren` list, because `kontaktdaten["plz_impfzentren"][0]` on an
empty list raises `IndexError` first, which the `except KeyError` handler does
not convert (still before any network action). -/
theorem c7_missing_fields_amended :
    (∀ kd : Kontaktdaten, kd.code = none →
      run_search kd = SearchOutcome.raisedValueError) ∧
    (∀ kd : Kontaktdaten, kd.kontakt = none →
      run_search kd = SearchOutcome.raisedValueError) ∧
    (∀ kd : Kontaktdaten, kd.plz = none → kd.plz_impfzentren = none →
      run_search kd = SearchOutcome.raisedValueError) ∧
    (∀ (kd : Kontaktdaten) (env : GenEnv), kd.plz_impfzentren = none →
      gen_code kd env = GenOutcome.raisedValueError ∧
      gencodeCalls (gen_code kd env) = []) ∧
    (∀ (kd : Kontaktdaten) (env : GenEnv) (k : Kontakt),
      kd.plz_impfzentren ≠ some [] → kd.kontakt = some k →
      k.notificationReceiver = none →
      gen_code kd env = GenOutcome.raisedValueError ∧
      gencodeCalls (gen_code kd env) = []) ∧
    (∀ (kd : Kontaktdaten) (env : GenEnv) (k : Kontakt),
      kd.plz_impfzentren ≠ some [] → kd.kontakt = some k → k.phone = none →
      gen_code kd env = GenOutcome.raisedValueError ∧
      gencodeCalls (gen_code kd env) = []) := by
  have gen_raises : ∀ (kd : Kontaktdaten) (env : GenEnv),
      genExtract kd = Except.error ExtractErr.keyError →
      gen_code kd env = GenOutcome.raisedValueError ∧
      gencodeCalls (gen_code kd env) = [] := by
    intro kd env hx
    have h1 : gen_code kd env = GenOutcome.raisedValueError := by
      unfold gen_code; rw [hx]
    refine ⟨h1, ?_⟩
    rw [h1]
    rfl
  refine ⟨?_, ?_, ?_, ?_, ?_, ?_⟩
  · intro kd h
    unfold run_search
    rw [h]
  · intro kd h
    rcases hc : kd.code with _ | c
    · simp [run_search, hc]
    · rcases hp : kd.plz with _ | p
      · rcases hz : kd.plz_impfzentren with _ | l
        · simp [run_search, hc, hp, hz]
        · simp [run_search, hc, hp, hz, h]
      · by_cases hpe : (!p.isEmpty) = true
        · simp [run_search, hc, hp, hpe, h]
        · rcases hz : kd.plz_impfzentren with _ | l
          · simp [run_search, hc, hp, hpe, hz]
          · simp [run_search, hc, hp, hpe, hz, h]
  · intro kd h1 h2
    rcases hc : kd.code with _ | c
    · simp [run_search, hc]
    · simp [run_search, hc, h1, h2]
  · intro kd env h
    refine gen_raises kd env ?_
    unfold genExtract
    rw [h]
  · intro kd env k hne hk hr
    refine gen_raises kd env ?_
    rcases hz : kd.plz_impfzentren with _ | l
    · simp [genExtract, hz]
    · rcases l with _ | ⟨p, rest⟩
      · exact absurd hz hne
      · simp [genExtract, hz, hk, hr]
  · intro kd env k hne hk hp
    refine gen_raises kd env ?_
    rcases hz : kd.plz_impfzentren with _ | l
    · simp [genExtract, hz]
    · rcases l with _ | ⟨q, rest⟩
      · exact absurd hz hne
      · rcases hr : k.notificationReceiver with _ | mail
        · simp [genExtract, hz, hk, hr]
        · simp [genExtract, hz, hk, hr, hp]

/-! ### The contact-data validator

`validate_kontaktdaten` lives in `tools/kontaktdaten`, outside the inspected
sources, so it is modelled from the spec. -/

/-- Modelled from the spec: a required field, when present, is a non-empty
string (spec §3: "required fields are non-empty strings"); an absent field is
not checked, since the interactive flow validates partially-filled
dictionaries after every single entry. -/
def okStr : Option Str → Bool
  | none => true
  | some s => !s.isEmpty

/-- Modelled from the spec: a present phone number must carry the canonical
country-code prefix (spec §3: "phone must be convertible to a canonical
`+<countrycode><digits>` form"). -/
def okPhone : Option Str → Bool
  | none => true
  | some p => pyStartswith p (String.toList "+49")

/-- Modelled from the spec: the notification channel is "fixed to one kind"
(spec §3), the one the program itself installs, "email". -/
def okChannel : Option Str → Bool
  | none => true
  | some c => c == String.toList "email"

/-- Modelled from the spec: a present Location Set is non-empty and its
postal-code identifiers are non-empty (spec §3: "a set of postal-code
identifiers ... non-empty"). -/
def okPlzList : Option (List Str) → Bool
  | none => true
  | some l => !l.isEmpty && l.all (fun p => !p.isEmpty)

/-- Modelled from the spec: validation of the `kontakt` sub-dictionary, one
check per present field. -/
def validate_kontakt (k : Kontakt) : Bool :=
  okStr k.anrede && okStr k.vorname && okStr k.nachname && okStr k.strasse &&
  okStr k.hausnummer && okStr k.plz && okStr k.ort && okPhone k.phone &&
  okChannel k.notificationChannel && okStr k.notificationReceiver

/-- Modelled from the spec: `validate_kontaktdaten` from `tools/kontaktdaten`
(not under the inspected sources) checks every present field of the dictionary
and accepts absent fields, raising `ValidationError` otherwise; here it is a
Boolean predicate. -/
def validate_kontaktdaten (kd : Kontaktdaten) : Bool :=
  okStr kd.code && okStr kd.plz && okPlzList kd.plz_impfzentren &&
  (match kd.kontakt with
   | none => true
   | some k => validate_kontakt k)

/-! ### `update_kontaktdaten_interactive` (lines 23-109) and
`input_kontaktdaten_key` (lines 112-127) -/

/-- The two values the `command` argument may take (the assertion of
line 39). -/
inductive Cmd
  | code
  | search
  deriving DecidableEq

/-- `input_kontaktdaten_key`: repeatedly read an input, strip it, transform
it, store it at the target key and validate the whole dictionary, until
validation passes.  The inputs are a finite list; an exhausted list models a
user who never enters a valid value (the loop re-prompts forever), yielding
`none`. -/
def input_kontaktdaten_key {α : Type} (kd : Kontaktdaten)
    (store : Kontaktdaten → α → Kontaktdaten) (transformer : Str → α) :
    List Str → Option Kontaktdaten
  | [] => none
  | x :: rest =>
    if validate_kontaktdaten (store kd (transformer (pyStrip x))) then
      some (store kd (transformer (pyStrip x)))
    else input_kontaktdaten_key kd store transformer rest

/-- Observable events of `update_kontaktdaten_interactive`, in program order:
the output file being opened for writing (truncation), an interactive prompt,
and the final `json.dump`. -/
inductive UIEvent
  | fileOpened
  | prompted
  | fileWritten
  deriving DecidableEq

/-- One conditional block of `update_kontaktdaten_interactive`: given the
current dictionary, produce the updated dictionary (or `none` for a prompt
loop that never terminates) and the events it emitted. -/
abbrev Step := Kontaktdaten → Option Kontaktdaten × List UIEvent

/-- Sequencing of blocks: once a block has diverged, nothing further runs. -/
def seqStep (acc : Option Kontaktdaten × List UIEvent) (s : Step) :
    Option Kontaktdaten × List UIEvent :=
  match acc with
  | (none, evs) => (none, evs)
  | (some kd, evs) =>
    let r := s kd
    (r.1, evs ++ r.2)

/-- Run the blocks of the function body in order. -/
def runSteps (init : Option Kontaktdaten × List UIEvent) (steps : List Step) :
    Option Kontaktdaten × List UIEvent :=
  steps.foldl seqStep init

/-- The interactive inputs available to each prompt of
`update_kontaktdaten_interactive`. -/
structure UIEnv where
  plzInputs : List Str := []
  codeInputs : List Str := []
  anredeInputs : List Str := []
  vornameInputs : List Str := []
  nachnameInputs : List Str := []
  strasseInputs : List Str := []
  hausnummerInputs : List Str := []
  plzWohnortInputs : List Str := []
  ortInputs : List Str := []
  phoneInputs : List Str := []
  mailInputs : List Str := []

/-- Lines 47-57: prompt for the Impfzentrum postal codes when absent. -/
def step_plz_impfzentren (env : UIEnv) : Step := fun kd =>
  if kd.plz_impfzentren.isNone then
    (input_kontaktdaten_key kd (fun kd0 v => { kd0 with plz_impfzentren := some v })
      plz_transformer env.plzInputs, [UIEvent.prompted])
  else (some kd, [])

/-- Lines 59-60: prompt for the code when absent and searching. -/
def step_code (cmd : Cmd) (env : UIEnv) : Step := fun kd =>
  if kd.code.isNone && (cmd == Cmd.search) then
    (input_kontaktdaten_key kd (fun kd0 v => { kd0 with code := some v })
      (fun s => s) env.codeInputs, [UIEvent.prompted])
  else (some kd, [])

/-- Lines 62-63: install an empty `kontakt` sub-dictionary when absent. -/
def step_kontakt_init : Step := fun kd =>
  if kd.kontakt.isNone then (some { kd with kontakt := some emptyKontakt }, [])
  else (some kd, [])

/-- One of the `kontakt`-field prompt blocks (lines 65-105): when the field is
missing and the block is active for the current command, prompt with the
field's transformer; the stored value overwrites the one key, as
`input_kontaktdaten_key` does through the resolved `target` dictionary. -/
def step_kontakt_field (missing : Kontakt → Bool) (assign : Kontakt → Str → Kontakt)
    (transformer : Str → Str) (inputs : List Str) (active : Bool) : Step := fun kd =>
  match kd.kontakt with
  | none => (none, [])
  | some k =>
    if missing k && active then
      (input_kontaktdaten_key kd (fun _ v => { kd with kontakt := some (assign k v) })
        transformer inputs, [UIEvent.prompted])
    else (some kd, [])

/-- The `kontakt` sub-dictionary with its notification channel set to
"email". -/
def setChannelEmail (k : Kontakt) : Kontakt :=
  { k with notificationChannel := some (String.toList "email") }

/-- Lines 100-101: default the notification channel to "email" when absent. -/
def step_notification_channel : Step := fun kd =>
  match kd.kontakt with
  | none => (none, [])
  | some k =>
    if k.notificationChannel.isNone then
      (some { kd with kontakt := some (setChannelEmail k) }, [])
    else (some kd, [])

/-- The body of `update_kontaktdaten_interactive` between the file opening and
the final `json.dump`, block by block in source order (lines 47-105). -/
def ui_steps (cmd : Cmd) (env : UIEnv) : List Step :=
  [step_plz_impfzentren env,
   step_code cmd env,
   step_kontakt_init,
   step_kontakt_field (fun k => k.anrede.isNone)
     (fun k v => { k with anrede := some v }) (fun s => s)
     env.anredeInputs (cmd == Cmd.search),
   step_kontakt_field (fun k => k.vorname.isNone)
     (fun k v => { k with vorname := some v }) (fun s => s)
     env.vornameInputs (cmd == Cmd.search),
   step_kontakt_field (fun k => k.nachname.isNone)
     (fun k v => { k with nachname := some v }) (fun s => s)
     env.nachnameInputs (cmd == Cmd.search),
   step_kontakt_field (fun k => k.strasse.isNone)
     (fun k v => { k with strasse := some v }) (fun s => s)
     env.strasseInputs (cmd == Cmd.search),
   step_kontakt_field (fun k => k.hausnummer.isNone)
     (fun k v => { k with hausnummer := some v }) (fun s => s)
     env.hausnummerInputs (cmd == Cmd.search),
   step_kontakt_field (fun k => k.plz.isNone)
     (fun k v => { k with plz := some v }) (fun s => s)
     env.plzWohnortInputs (cmd == Cmd.search),
   step_kontakt_field (fun k => k.ort.isNone)
     (fun k v => { k with ort := some v }) (fun s => s)
     env.ortInputs (cmd == Cmd.search),
   step_kontakt_field (fun k => k.phone.isNone)
     (fun k v => { k with phone := some v }) normalize_phone
     env.phoneInputs true,
   step_notification_channel,
   step_kontakt_field (fun k => k.notificationReceiver.isNone)
     (fun k v => { k with notificationReceiver := some v }) (fun s => s)
     env.mailInputs true]

/-- The observable outcome of `update_kontaktdaten_interactive`. -/
inductive UIOutcome
  | raisedValidation
  | diverged
  | returned (kd : Kontaktdaten)
  deriving DecidableEq

/-- `update_kontaktdaten_interactive` (lines 23-109): validate the known data
(raising `ValidationError` otherwise, before the file is touched), open the
output file for writing, run the prompt blocks in order, dump the dictionary
and return it. -/
def update_kontaktdaten_interactive (known : Kontaktdaten) (cmd : Cmd) (env : UIEnv) :
    UIOutcome × List UIEvent :=
  if validate_kontaktdaten known then
    match runSteps (some known, [UIEvent.fileOpened]) (ui_steps cmd env) with
    | (some kd, evs) => (UIOutcome.returned kd, evs ++ [UIEvent.fileWritten])
    | (none, evs) => (UIOutcome.diverged, evs)
  else (UIOutcome.raisedValidation, [])

/-! ### C8, C9: properties of the interactive update -/

/-- A block re-establishes validity: whenever it runs on a valid dictionary
and completes, the dictionary it hands on is valid. -/
def StepPreserves (s : Step) : Prop :=
  ∀ (kd kd' : Kontaktdaten) (evs : List UIEvent),
    validate_kontaktdaten kd = true → s kd = (some kd', evs) →
    validate_kontaktdaten kd' = true

lemma input_kontaktdaten_key_valid {α : Type} (kd : Kontaktdaten)
    (store : Kontaktdaten → α → Kontaktdaten) (transformer : Str → α) :
    ∀ (inputs : List Str) (kd' : Kontaktdaten),
      input_kontaktdaten_key kd store transformer inputs = some kd' →
      validate_kontaktdaten kd' = true := by
  intro inputs
  induction inputs with
  | nil =>
    intro kd' h
    exact absurd h (by simp [input_kontaktdaten_key])
  | cons x rest ih =>
    intro kd' h
    unfold input_kontaktdaten_key at h
    by_cases hv : validate_kontaktdaten (store kd (transformer (pyStrip x))) = true
    · rw [if_pos hv] at h
      rcases Option.some.inj h with rfl
      exact hv
    · rw [if_neg hv] at h
      exact ih kd' h

lemma preserves_step_plz (env : UIEnv) : StepPreserves (step_plz_impfzentren env) := by
  intro kd kd' evs hkd h
  unfold step_plz_impfzentren at h
  by_cases hc : kd.plz_impfzentren.isNone = true
  · rw [if_pos hc] at h
    simp only [Prod.mk.injEq] at h
    exact input_kontaktdaten_key_valid _ _ _ _ _ h.1
  · rw [if_neg hc] at h
    simp only [Prod.mk.injEq] at h
    rcases Option.some.inj h.1 with rfl
    exact hkd

lemma preserves_step_code (cmd : Cmd) (env : UIEnv) : StepPreserves (step_code cmd env) := by
  intro kd kd' evs hkd h
  unfold step_code at h
  by_cases hc : (kd.code.isNone && (cmd == Cmd.search)) = true
  · rw [if_pos hc] at h
    simp only [Prod.mk.injEq] at h
    exact input_kontaktdaten_key_valid _ _ _ _ _ h.1
  · rw [if_neg hc] at h
    simp only [Prod.mk.injEq] at h
    rcases Option.some.inj h.1 with rfl
    exact hkd

lemma validate_kontakt_empty : validate_kontakt emptyKontakt = true := by decide

lemma preserves_step_kontakt_init : StepPreserves step_kontakt_init := by
  intro kd kd' evs hkd h
  unfold step_kontakt_init at h
  by_cases hc : kd.kontakt.isNone = true
  · rw [if_pos hc] at h
    simp only [Prod.mk.injEq] at h
    rcases Option.some.inj h.1 with rfl
    simp only [validate_kontaktdaten, Bool.and_eq_true] at hkd ⊢
    exact ⟨hkd.1, by decide⟩
  · rw [if_neg hc] at h
    simp only [Prod.mk.injEq] at h
    rcases Option.some.inj h.1 with rfl
    exact hkd

lemma preserves_step_kontakt_field (missing : Kontakt → Bool)
    (assign : Kontakt → Str → Kontakt) (transformer : Str → Str)
    (inputs : List Str) (active : Bool) :
    StepPreserves (step_kontakt_field missing assign transformer inputs active) := by
  intro kd kd' evs hkd h
  rcases hk : kd.kontakt with _ | k
  · simp only [step_kontakt_field, hk] at h
    exact absurd h (by simp)
  · simp only [step_kontakt_field, hk] at h
    by_cases hc : (missing k && active) = true
    · rw [if_pos hc] at h
      simp only [Prod.mk.injEq] at h
      exact input_kontaktdaten_key_valid _ _ _ _ _ h.1
    · rw [if_neg hc] at h
      simp only [Prod.mk.injEq] at h
      rcases Option.some.inj h.1 with rfl
      exact hkd

lemma validate_setChannelEmail (k : Kontakt) (hkk : validate_kontakt k = true) :
    validate_kontakt (setChannelEmail k) = true := by
  obtain ⟨a, v, n, st, hs, pl, ort, ph, nc, nr⟩ := k
  simp only [validate_kontakt, setChannelEmail, Bool.and_eq_true] at hkk ⊢
  exact ⟨⟨hkk.1.1, by decide⟩, hkk.2⟩

lemma preserves_step_notification_channel : StepPreserves step_notification_channel := by
  intro kd kd' evs hkd h
  rcases hk : kd.kontakt with _ | k
  · simp only [step_notification_channel, hk] at h
    exact absurd h (by simp)
  · simp only [step_notification_channel, hk] at h
    by_cases hc : k.notificationChannel.isNone = true
    · rw [if_pos hc] at h
      simp only [Prod.mk.injEq] at h
      rcases Option.some.inj h.1 with rfl
      simp only [validate_kontaktdaten, hk, Bool.and_eq_true] at hkd ⊢
      exact ⟨hkd.1, validate_setChannelEmail k hkd.2⟩
    · rw [if_neg hc] at h
      simp only [Prod.mk.injEq] at h
      rcases Option.some.inj h.1 with rfl
      exact hkd

lemma ui_steps_preserve (cmd : Cmd) (env : UIEnv) :
    ∀ s ∈ ui_steps cmd env, StepPreserves s := by
  intro s hs
  simp only [ui_steps, List.mem_cons, List.not_mem_nil, or_false] at hs
  rcases hs with rfl | rfl | rfl | rfl | rfl | rfl | rfl | rfl | rfl | rfl | rfl | rfl | rfl
  · exact preserves_step_plz env
  · exact preserves_step_code cmd env
  · exact preserves_step_kontakt_init
  · exact preserves_step_kontakt_field _ _ _ _ _
  · exact preserves_step_kontakt_field _ _ _ _ _
  · exact preserves_step_kontakt_field _ _ _ _ _
  · exact preserves_step_kontakt_field _ _ _ _ _
  · exact preserves_step_kontakt_field _ _ _ _ _
  · exact preserves_step_kontakt_field _ _ _ _ _
  · exact preserves_step_kontakt_field _ _ _ _ _
  · exact preserves_step_kontakt_field _ _ _ _ _
  · exact preserves_step_notification_channel
  · exact preserves_step_kontakt_field _ _ _ _ _

lemma runSteps_none (evs : List UIEvent) (steps : List Step) :
    runSteps (none, evs) steps = (none, evs) := by
  induction steps with
  | nil => rfl
  | cons s rest ih =>
    rw [show runSteps (none, evs) (s :: rest) =
      runSteps (seqStep (none, evs) s) rest from rfl]
    exact ih

lemma runSteps_events (steps : List Step) :
    ∀ init : Option Kontaktdaten × List UIEvent,
      ∃ e, (runSteps init steps).2 = init.2 ++ e := by
  induction steps with
  | nil => intro init; exact ⟨[], by simp [runSteps]⟩
  | cons s rest ih =>
    intro init
    obtain ⟨e, he⟩ := ih (seqStep init s)
    rw [show runSteps init (s :: rest) = runSteps (seqStep init s) rest from rfl]
    rcases init with ⟨o, evs⟩
    rcases o with _ | kd
    · exact ⟨e, by simpa [seqStep] using he⟩
    · refine ⟨(s kd).2 ++ e, ?_⟩
      rw [he]
      simp [seqStep]

lemma runSteps_valid :
    ∀ steps : List Step, (∀ s ∈ steps, StepPreserves s) →
      ∀ (kd0 : Kontaktdaten) (evs0 : List UIEvent) (kd : Kontaktdaten)
        (evs : List UIEvent),
        validate_kontaktdaten kd0 = true →
        runSteps (some kd0, evs0) steps = (some kd, evs) →
        validate_kontaktdaten kd = true := by
  intro steps
  induction steps with
  | nil =>
    intro _ kd0 evs0 kd evs h0 hrun
    simp only [runSteps, List.foldl_nil, Prod.mk.injEq] at hrun
    rcases Option.some.inj hrun.1 with rfl
    exact h0
  | cons s rest ih =>
    intro hall kd0 evs0 kd evs h0 hrun
    rw [show runSteps (some kd0, evs0) (s :: rest) =
      runSteps (seqStep (some kd0, evs0) s) rest from rfl] at hrun
    rcases hs : s kd0 with ⟨o1, e1⟩
    rw [show seqStep (some kd0, evs0) s = ((s kd0).1, evs0 ++ (s kd0).2) from rfl,
      hs] at hrun
    rcases o1 with _ | kd1
    · rw [show (((none : Option Kontaktdaten), e1).1, evs0 ++ ((none : Option Kontaktdaten), e1).2) =
        ((none : Option Kontaktdaten), evs0 ++ e1) from rfl, runSteps_none] at hrun
      exact absurd hrun (by simp)
    · have h1 : validate_kontaktdaten kd1 = true :=
        hall s (List.mem_cons_self s rest) kd0 kd1 e1 h0 hs
      exact ih (fun t ht => hall t (List.mem_cons_of_mem s ht)) kd1 (evs0 ++ e1)
        kd evs h1 hrun

/-- C8: whenever `update_kontaktdaten_interactive` returns normally, the
returned dictionary satisfies `validate_kontaktdaten`: the known data is
validated on entry, every prompt loops until the whole dictionary validates,
and the two silent assignments (empty `kontakt`, default notification
channel) preserve validity. -/
theorem c8_interactive_result_valid (known : Kontaktdaten) (cmd : Cmd) (env : UIEnv)
    (kd : Kontaktdaten) (evs : List UIEvent)
    (h : update_kontaktdaten_interactive known cmd env = (UIOutcome.returned kd, evs)) :
    validate_kontaktdaten kd = true := by
  unfold update_kontaktdaten_interactive at h
  by_cases hv : validate_kontaktdaten known = true
  · rw [if_pos hv] at h
    rcases hrun : runSteps (some known, [UIEvent.fileOpened]) (ui_steps cmd env)
      with ⟨o, evs2⟩
    rw [hrun] at h
    rcases o with _ | kd2
    · exact absurd h (by simp)
    · simp only [Prod.mk.injEq, UIOutcome.returned.injEq] at h
      obtain ⟨h1, -⟩ := h
      rw [← h1]
      exact runSteps_valid (ui_steps cmd env) (ui_steps_preserve cmd env) known
        [UIEvent.fileOpened] kd2 evs2 hv hrun
  · rw [if_neg hv] at h
    exact absurd h (by simp)

/-- C9: when the known data fails validation the function raises
`ValidationError` with no file event at all (the output file is not opened, so
its contents are untouched); when validation passes, the very first event is
the file being opened for writing, before any interactive prompt. -/
theorem c9_validate_before_file_open :
    (∀ (known : Kontaktdaten) (cmd : Cmd) (env : UIEnv),
      validate_kontaktdaten known = false →
      update_kontaktdaten_interactive known cmd env = (UIOutcome.raisedValidation, [])) ∧
    (∀ (known : Kontaktdaten) (cmd : Cmd) (env : UIEnv),
      validate_kontaktdaten known = true →
      ∃ evs, (update_kontaktdaten_interactive known cmd env).2 =
        UIEvent.fileOpened :: evs) := by
  constructor
  · intro known cmd env h
    unfold update_kontaktdaten_interactive
    rw [if_neg (by rw [h]; exact Bool.false_ne_true)]
  · intro known cmd env h
    unfold update_kontaktdaten_interactive
    rw [if_pos h]
    obtain ⟨e, he⟩ := runSteps_events (ui_steps cmd env) (some known, [UIEvent.fileOpened])
    rcases hrun : runSteps (some known, [UIEvent.fileOpened]) (ui_steps cmd env)
      with ⟨o, evs2⟩
    rw [hrun] at he
    rcases o with _ | kd2
    · exact ⟨e, by simpa using he⟩
    · refine ⟨e ++ [UIEvent.fileWritten], ?_⟩
      show evs2 ++ [UIEvent.fileWritten] = UIEvent.fileOpened :: (e ++ [UIEvent.fileWritten])
      have he2 : evs2 = UIEvent.fileOpened :: e := by simpa using he
      rw [he2]
      rfl

/-! ### Concrete test vectors -/

/-- A fully-populated contact sub-dictionary. -/
def kontaktVoll : Kontakt :=
  { anrede := some (String.toList "Herr"),
    vorname := some (String.toList "Max"),
    nachname := some (String.toList "Mustermann"),
    strasse := some (String.toList "Musterstrasse"),
    hausnummer := some (String.toList "1"),
    plz := some (String.toList "68163"),
    ort := some (String.toList "Mannheim"),
    phone := some (String.toList "+49151234567"),
    notificationChannel := some (String.toList "email"),
    notificationReceiver := some (String.toList "max@example.com") }

/-- Contact data sufficient for the code-generation flow. -/
def kdGen : Kontaktdaten :=
  { code := none, plz := none,
    plz_impfzentren := some [String.toList "68163"],
    kontakt := some kontaktVoll }

/-- A `gen_code` environment in which the token comes back and the first
confirmation succeeds. -/
def envGen : GenEnv :=
  { lmInputs := [String.toList "l920"],
    smsInputs := fun _ => String.toList "123-456",
    anfordern_token := some (String.toList "TOKEN"),
    bestaetigen_ok := fun _ _ => true,
    rng := fun _ => 0 }

/-- The trace `gen_code kdGen envGen` produces. -/
def callsGen : List NetCall :=
  [NetCall.renewCookiesCode,
   NetCall.code_anfordern (String.toList "max@example.com")
     (String.toList "+49151234567") (String.toList "68163") (String.toList "L920"),
   NetCall.code_bestaetigen (String.toList "TOKEN") (String.toList "123456")]

/-- C1, at a concrete run: the confirmation-call cap holds on the trace of
`gen_code kdGen envGen`. -/
theorem c1_confirmation_attempts_witness :
    (bestaetigenArgs callsGen).length ≤ 3 :=
  (c1_confirmation_attempts kdGen envGen true callsGen (String.toList "TOKEN")
    (by decide) (by decide)).1

/-- Contact data in the legacy format: a truthy top-level `plz` next to a
`plz_impfzentren` entry. -/
def kdLegacy : Kontaktdaten :=
  { code := some (String.toList "VACC-IPYA-AAAA"),
    plz := some (String.toList "12345"),
    plz_impfzentren := some [String.toList "99999"],
    kontakt := some kontaktVoll }

/-- C10, at a concrete input: the legacy `plz` wins over `plz_impfzentren`. -/
theorem c10_legacy_plz_witness :
    run_search kdLegacy = SearchOutcome.terminsuche (String.toList "VACC-IPYA-AAAA")
      [String.toList "12345"] kontaktVoll :=
  (c10_legacy_plz kdLegacy (String.toList "VACC-IPYA-AAAA") (String.toList "12345")
    kontaktVoll (String.toList "Max") (String.toList "Mustermann")
    rfl rfl rfl rfl).1 rfl (by decide)

/-- Fully-populated contact data: every interactive block skips. -/
def kdVoll : Kontaktdaten :=
  { code := some (String.toList "VACC-IPYA-AAAA"), plz := none,
    plz_impfzentren := some [String.toList "68163"],
    kontakt := some kontaktVoll }

/-- C8, at a concrete run: the dictionary returned by a run on complete data
validates. -/
theorem c8_interactive_result_valid_witness :
    validate_kontaktdaten kdVoll = true :=
  c8_interactive_result_valid kdVoll Cmd.code {} kdVoll
    [UIEvent.fileOpened, UIEvent.fileWritten] (by decide)

/-- A contact sub-dictionary with a phone number but no mail address. -/
def kontaktOhneMail : Kontakt :=
  { phone := some (String.toList "+49151234567") }

/-- Contact data with an empty `plz_impfzentren` list and no
`notificationReceiver`. -/
def kdLeereZentren : Kontaktdaten :=
  { plz_impfzentren := some [], kontakt := some kontaktOhneMail }

/-- An environment for runs that never get past extraction. -/
def envLeer : GenEnv :=
  { lmInputs := [], smsInputs := fun _ => [], anfordern_token := none,
    bestaetigen_ok := fun _ _ => false, rng := fun _ => 0 }

/-- C7, counterexample to the claim as stated: this dictionary lacks the
required `notificationReceiver` key, yet `gen_code` does not raise
`ValueError` — `kontaktdaten["plz_impfzentren"][0]` on the empty list raises
`IndexError` first, and the `except KeyError` handler does not catch it. -/
theorem c7_missing_fields_counterexample :
    kdLeereZentren.kontakt = some kontaktOhneMail ∧
    kontaktOhneMail.notificationReceiver = none ∧
    gen_code kdLeereZentren envLeer = GenOutcome.raisedIndexError ∧
    gen_code kdLeereZentren envLeer ≠ GenOutcome.raisedValueError := by
  refine ⟨rfl, rfl, rfl, by decide⟩

end Vaccipy
